import Mathlib

set_option linter.unusedVariables false

/-!
# Verification of the YouTube-Video-Shortifier pipeline

Shallow embedding of the two source files `ShortifyYtVideo_Ffmpeg.py` and
`ShortifyYtVideo_Moviepy.py`.  Pure helpers (`break_text`, `sanitize_filename`,
the scale-factor arithmetic) are translated to Lean functions; the effectful
pipeline functions (`download_video`, `download_and_merge`,
`trim_and_resize_video`, `main_flow`) are translated to pure functions over an
explicit environment that records the filesystem contents and the outcome of
each external call (yt-download, ffmpeg/ffprobe subprocesses, moviepy clip
loads), returning a record of the Python return value together with the trace
of external effects the function performs.
-/

namespace Shortify

/-- A Python return value, as far as the functions of this program produce
them: `None`, a boolean, or a string (an output path would be a string). -/
inductive PyValue where
  | none
  | bool (b : Bool)
  | str (s : String)
deriving DecidableEq, Repr

/-! ## `textwrap.wrap`

Both variants call `textwrap.wrap(text, width=line_width)` (all other options
left at their defaults) inside `break_text`.  The model below follows CPython's
`TextWrapper` with the default options:

* `replace_whitespace=True`: every whitespace character is replaced by a
  space (`normalizeWs`; `expand_tabs` would first widen tab characters to the
  next tab stop, so this is exact for tab-free inputs);
* the text is chunked into maximal runs of spaces / non-spaces (`splitRuns`;
  the additional `break_on_hyphens` refinement, which also splits a chunk
  after an internal hyphen of a compound word, is not modelled — it only
  moves break points inside hyphenated words and no analysed input contains
  one);
* lines are filled greedily (`fillLine`), a chunk longer than the remaining
  width is broken (`handleLongWord`, CPython's `_handle_long_word` with
  `break_long_words=True`), and with `drop_whitespace=True` a leading
  whitespace chunk of every line after the first emitted one and a trailing
  whitespace chunk of every line are dropped (`wrapLoop` / `dropTrailingWs`);
  a line is emitted only if it is nonempty.

`wrapLoop` carries fuel; every iteration of CPython's loop consumes at least
one chunk or at least one character, so `lenSum chunks + chunks.length + 1`
iterations always suffice, and `textwrapWrap` passes exactly that much fuel.
-/

/-- `replace_whitespace`: each whitespace character becomes a space. -/
def normalizeWs (s : String) : List Char :=
  s.toList.map fun c => if c.isWhitespace then ' ' else c

/-- Helper for `splitRuns`: `sp` is the class (space or not) of the current
run, `cur` the current run reversed. -/
def splitRunsAux (sp : Bool) (cur : List Char) : List Char → List (List Char)
  | [] => [cur.reverse]
  | c :: cs =>
    if (c == ' ') == sp then splitRunsAux sp (c :: cur) cs
    else cur.reverse :: splitRunsAux (c == ' ') [c] cs

/-- Chunking of the normalized text into maximal runs of spaces/non-spaces. -/
def splitRuns : List Char → List (List Char)
  | [] => []
  | c :: cs => splitRunsAux (c == ' ') [c] cs

/-- Total number of characters in a chunk list. -/
def lenSum (l : List (List Char)) : Nat := (l.map List.length).sum

/-- A chunk consisting of whitespace only (`chunk.strip() == ''`). -/
def isSpaceRun (c : List Char) : Bool := c.all (· == ' ')

/-- The greedy inner loop of `_wrap_chunks`: keep taking chunks while the
current line length stays within `width`; returns the taken chunks and the
remaining ones. -/
def fillLine (width : Nat) : Nat → List (List Char) → List (List Char) × List (List Char)
  | _, [] => ([], [])
  | curLen, c :: cs =>
    if curLen + c.length ≤ width then
      let p := fillLine width (curLen + c.length) cs
      (c :: p.1, p.2)
    else ([], c :: cs)

/-- CPython's `_handle_long_word` with `break_long_words=True`: if the next
chunk is longer than the whole width, break it at the space left on the
current line. -/
def handleLongWord (width : Nat) (line rest : List (List Char)) :
    List (List Char) × List (List Char) :=
  match rest with
  | [] => (line, [])
  | d :: ds =>
    if width < d.length then
      let spaceLeft := if width < 1 then 1 else width - lenSum line
      (line ++ [d.take spaceLeft], d.drop spaceLeft :: ds)
    else (line, d :: ds)

/-- `drop_whitespace`: a trailing whitespace chunk of the line is dropped. -/
def dropTrailingWs (line : List (List Char)) : List (List Char) :=
  match line.getLast? with
  | some l => if isSpaceRun l then line.dropLast else line
  | Option.none => line

/-- The outer loop of `_wrap_chunks`.  `emitted` records whether a line has
been emitted already (CPython tests `lines` being nonempty before dropping a
leading whitespace chunk). -/
def wrapLoop (width : Nat) : Nat → List (List Char) → Bool → List (List Char)
  | 0, _, _ => []
  | _ + 1, [], _ => []
  | fuel + 1, c :: cs, emitted =>
    if emitted && isSpaceRun c then wrapLoop width fuel cs emitted
    else
      let p := fillLine width 0 (c :: cs)
      let q := handleLongWord width p.1 p.2
      let line := dropTrailingWs q.1
      if line.isEmpty then wrapLoop width fuel q.2 emitted
      else line.flatten :: wrapLoop width fuel q.2 true

/-- `textwrap.wrap(text, width)` with default options. -/
def textwrapWrap (text : String) (width : Nat) : List String :=
  let chunks := splitRuns (normalizeWs text)
  (wrapLoop width (lenSum chunks + chunks.length + 1) chunks false).map String.mk

/-! ## `break_text` (both variants) -/

/-- `wrapped_text[-1] += '...'`: append the ellipsis to the last line.
(On an empty list CPython would raise `IndexError`; with `max_lines ≥ 1` the
list handed to this helper is never empty.) -/
def appendEllipsis : List String → List String
  | [] => []
  | [l] => [l ++ "..."]
  | l :: ls => l :: appendEllipsis ls

/-- The wrapped lines kept by `break_text`: the raw wrap, truncated to
`maxLines` lines with an ellipsis appended to the last kept line whenever the
raw wrap was longer. -/
def breakTextLines (text : String) (maxLines lineWidth : Nat) : List String :=
  let wrapped := textwrapWrap text lineWidth
  if maxLines < wrapped.length then appendEllipsis (wrapped.take maxLines) else wrapped

/-- `break_text` of `ShortifyYtVideo_Moviepy.py` (lines 135-148). -/
def break_text (text : String) (maxLines lineWidth : Nat) : String :=
  "\n".intercalate (breakTextLines text maxLines lineWidth)

/-- `break_text` of `ShortifyYtVideo_Ffmpeg.py` (lines 143-160): same, but the
wrapped block is surrounded by `topPadding`/`bottomPadding` blank lines. -/
def break_text_padded (text : String) (maxLines lineWidth topPadding bottomPadding : Nat) :
    String :=
  "\n".intercalate
    (List.replicate topPadding "" ++ breakTextLines text maxLines lineWidth ++
      List.replicate bottomPadding "")

/-! ## `sanitize_filename` (both variants) -/

/-- A regex word character (`\w`), restricted to ASCII: letter, digit or
underscore.  (Python's `\w` additionally matches non-ASCII word characters;
the titles analysed here are ASCII.) -/
def isWordChar (c : Char) : Bool := c.isAlphanum || c == '_'

/-- `re.sub(r'\W+', '', filename)` of the ffmpeg variant (lines 46-48):
each maximal run of non-word characters is replaced by the empty string. -/
def subNonWordRuns (l : List Char) : List Char :=
  match l with
  | [] => []
  | c :: cs =>
    if isWordChar c then c :: subNonWordRuns cs
    else subNonWordRuns (cs.dropWhile fun d => !(isWordChar d))
termination_by l.length
decreasing_by
  · simp
  · calc (cs.dropWhile fun d => !(isWordChar d)).length
        ≤ cs.length := (List.dropWhile_sublist _).length_le
      _ < (c :: cs).length := by simp

/-- `sanitize_filename` of `ShortifyYtVideo_Ffmpeg.py` (lines 46-48). -/
def sanitize_filename_F (s : String) : String := String.mk (subNonWordRuns s.toList)

/-- The character class `[<>:"/\\|?*]` of the moviepy variant. -/
def windowsBadChars : List Char := ['<', '>', ':', '"', '/', '\\', '|', '?', '*']

/-- `sanitize_filename` of `ShortifyYtVideo_Moviepy.py` (lines 50-52):
`re.sub(r'[<>:"/\\|?*]', '', filename)` deletes each such character. -/
def sanitize_filename_M (s : String) : String :=
  String.mk (s.toList.filter fun c => !(windowsBadChars.contains c))

/-- The sanitize rule in the words of the spec ("stripping all non-alphanumeric
characters from the title"), for comparison with the source rules. -/
def stripNonAlnumSpec (s : String) : String :=
  String.mk (s.toList.filter Char.isAlphanum)

/-! ## Lemmas about the text-wrapping model -/

theorem length_mk (l : List Char) : (String.mk l).length = l.length := rfl

theorem lenSum_nil : lenSum [] = 0 := rfl

theorem lenSum_cons (c : List Char) (l : List (List Char)) :
    lenSum (c :: l) = c.length + lenSum l := by
  simp [lenSum]

theorem lenSum_append (l₁ l₂ : List (List Char)) :
    lenSum (l₁ ++ l₂) = lenSum l₁ + lenSum l₂ := by
  simp [lenSum]

theorem lenSum_dropLast_le (l : List (List Char)) : lenSum l.dropLast ≤ lenSum l := by
  induction l with
  | nil => exact Nat.le_refl _
  | cons a tl ih =>
    cases tl with
    | nil => simp [lenSum]
    | cons b tl2 =>
      rw [List.dropLast_cons₂, lenSum_cons, lenSum_cons]
      exact Nat.add_le_add_left ih _

/-- The greedy fill never exceeds the width (given the running length is still
within it). -/
theorem fillLine_lenSum_le (width : Nat) :
    ∀ (l : List (List Char)) (curLen : Nat), curLen ≤ width →
      curLen + lenSum (fillLine width curLen l).1 ≤ width := by
  intro l
  induction l with
  | nil => intro curLen h; simpa [fillLine, lenSum] using h
  | cons c cs ih =>
    intro curLen h
    by_cases hc : curLen + c.length ≤ width
    · simp only [fillLine, if_pos hc, lenSum_cons]
      have := ih (curLen + c.length) hc
      omega
    · simp only [fillLine, if_neg hc, lenSum_nil]
      omega

/-- Breaking a long word fills the line up to exactly the width, never
beyond it (for a positive width). -/
theorem handleLongWord_lenSum_le (width : Nat) (line rest : List (List Char))
    (hw : 1 ≤ width) (hline : lenSum line ≤ width) :
    lenSum (handleLongWord width line rest).1 ≤ width := by
  match rest with
  | [] => simpa [handleLongWord] using hline
  | d :: ds =>
    by_cases hd : width < d.length
    · have hnl : ¬ width < 1 := by omega
      simp only [handleLongWord, if_pos hd, if_neg hnl, lenSum_append, lenSum_cons,
        lenSum_nil, List.length_take]
      omega
    · simpa [handleLongWord, if_neg hd] using hline

theorem dropTrailingWs_lenSum_le (line : List (List Char)) :
    lenSum (dropTrailingWs line) ≤ lenSum line := by
  unfold dropTrailingWs
  match h : line.getLast? with
  | some l =>
    by_cases hs : isSpaceRun l
    · simpa [hs] using lenSum_dropLast_le line
    · simp [hs]
  | Option.none => simp

/-- Every line produced by the wrapping loop fits in the width. -/
theorem wrapLoop_mem_length_le (width : Nat) (hw : 1 ≤ width) :
    ∀ (fuel : Nat) (chunks : List (List Char)) (emitted : Bool) (l : List Char),
      l ∈ wrapLoop width fuel chunks emitted → l.length ≤ width := by
  intro fuel
  induction fuel with
  | zero => intro chunks emitted l h; simp [wrapLoop] at h
  | succ fuel ih =>
    intro chunks emitted l h
    match chunks with
    | [] => simp [wrapLoop] at h
    | c :: cs =>
      rw [wrapLoop] at h
      by_cases hsp : emitted && isSpaceRun c
      · rw [if_pos hsp] at h
        exact ih cs emitted l h
      · rw [if_neg hsp] at h
        simp only at h
        set p := fillLine width 0 (c :: cs) with hp
        set q := handleLongWord width p.1 p.2 with hq
        set line := dropTrailingWs q.1 with hline
        have hlen : lenSum line ≤ width := by
          refine le_trans (dropTrailingWs_lenSum_le q.1) ?_
          refine handleLongWord_lenSum_le width p.1 p.2 hw ?_
          simpa using fillLine_lenSum_le width (c :: cs) 0 (Nat.zero_le _)
        by_cases he : line.isEmpty
        · rw [if_pos he] at h
          exact ih q.2 emitted l h
        · rw [if_neg he] at h
          rcases List.mem_cons.mp h with rfl | hmem
          · simpa [lenSum] using hlen
          · exact ih q.2 true l hmem

/-- Every line returned by the `textwrap.wrap` model has at most `width`
characters (for a positive width, as `textwrap` requires). -/
theorem textwrapWrap_mem_length_le (text : String) (width : Nat) (hw : 1 ≤ width) :
    ∀ s ∈ textwrapWrap text width, s.length ≤ width := by
  intro s hs
  simp only [textwrapWrap, List.mem_map] at hs
  obtain ⟨l, hl, rfl⟩ := hs
  exact wrapLoop_mem_length_le width hw _ _ _ l hl

theorem appendEllipsis_length (l : List String) : (appendEllipsis l).length = l.length := by
  induction l with
  | nil => rfl
  | cons x xs ih =>
    cases xs with
    | nil => rfl
    | cons y ys => simpa [appendEllipsis] using ih

theorem appendEllipsis_getLast? (l : List String) :
    (appendEllipsis l).getLast? = l.getLast?.map (· ++ "...") := by
  induction l with
  | nil => rfl
  | cons x xs ih =>
    cases xs with
    | nil => rfl
    | cons y ys =>
      have hstep : appendEllipsis (x :: y :: ys) = x :: appendEllipsis (y :: ys) := rfl
      cases hae : appendEllipsis (y :: ys) with
      | nil =>
        have hlen := appendEllipsis_length (y :: ys)
        rw [hae] at hlen
        simp at hlen
      | cons z zs =>
        rw [hstep, hae, List.getLast?_cons_cons, ← hae, ih, List.getLast?_cons_cons]

theorem sum_map_length_take_le (c : Nat) :
    ∀ (l : List String) (m : Nat), (∀ x ∈ l, x.length ≤ c) →
      ((l.take m).map String.length).sum ≤ m * c := by
  intro l
  induction l with
  | nil => intro m _; simp
  | cons x xs ih =>
    intro m h
    match m with
    | 0 => simp
    | m + 1 =>
      simp only [List.take_succ_cons, List.map_cons, List.sum_cons]
      have h1 : x.length ≤ c := h x (List.mem_cons_self x xs)
      have h2 := ih m fun y hy => h y (List.mem_cons_of_mem x hy)
      calc x.length + ((xs.take m).map String.length).sum ≤ c + m * c := Nat.add_le_add h1 h2
        _ = (m + 1) * c := by ring

/-! ## Claim C1 -/

set_option maxRecDepth 4000 in
/-- C1 is false as stated.  (a) `break_text "hello..."` keeps the title's own
trailing "..." although nothing was truncated, refuting the "iff"; (b) a
200-character all-space title wraps to zero lines, not exactly 3; (c) for a
200-character single-word title the joined wrapped text has 125 characters,
exceeding `3*40`; (d) the ffmpeg variant's padding makes the returned string
four lines for a two-line title with `max_lines=3` (3 newlines = 4 lines). -/
theorem c1_counterexample :
    breakTextLines "hello..." 3 40 = ["hello..."] ∧
    (textwrapWrap "hello..." 40).length = 1 ∧
    breakTextLines (String.mk (List.replicate 200 ' ')) 3 40 = [] ∧
    (break_text (String.mk (List.replicate 200 'a')) 3 40).length = 125 ∧
    (break_text_padded "hello world" 3 5 1 1).toList.count '\n' = 3 := by
  decide

/-- C1 (amended): for every title, `break_text` keeps at most `max_lines`
wrapped lines; when the raw wrap exceeds `max_lines` lines, exactly
`max_lines` are kept and the last kept line is the raw line with "..."
appended; every raw-wrapped line has at most `line_width` characters, so the
kept lines hold at most `max_lines * line_width` characters before the
ellipsis and the joining newlines. -/
theorem c1_amended_break_text (text : String) (maxLines lineWidth : Nat)
    (hw : 1 ≤ lineWidth) (hm : 1 ≤ maxLines) :
    (breakTextLines text maxLines lineWidth).length ≤ maxLines ∧
    (maxLines < (textwrapWrap text lineWidth).length →
      (breakTextLines text maxLines lineWidth).length = maxLines ∧
      (breakTextLines text maxLines lineWidth).getLast? =
        ((textwrapWrap text lineWidth)[maxLines - 1]?).map (· ++ "...")) ∧
    (∀ s ∈ textwrapWrap text lineWidth, s.length ≤ lineWidth) ∧
    (((textwrapWrap text lineWidth).take maxLines).map String.length).sum ≤
      maxLines * lineWidth := by
  refine ⟨?_, ?_, textwrapWrap_mem_length_le text lineWidth hw,
    sum_map_length_take_le lineWidth _ maxLines (textwrapWrap_mem_length_le text lineWidth hw)⟩
  · simp only [breakTextLines]
    by_cases h : maxLines < (textwrapWrap text lineWidth).length
    · rw [if_pos h, appendEllipsis_length, List.length_take]
      omega
    · rw [if_neg h]
      omega
  · intro h
    simp only [breakTextLines]
    rw [if_pos h]
    constructor
    · rw [appendEllipsis_length, List.length_take]
      omega
    · rw [appendEllipsis_getLast?, List.getLast?_eq_getElem?, List.length_take]
      congr 1
      have hmin : min maxLines (textwrapWrap text lineWidth).length = maxLines := by omega
      rw [hmin]
      exact List.getElem?_take_of_lt (by omega)

set_option maxRecDepth 4000 in
/-- Witness for C1 (amended): the theorem applied to a concrete 200-character
title (which wraps to five 40-character lines), `line_width = 40`,
`max_lines = 3`. -/
theorem c1_amended_break_text_witness :
    1 ≤ 40 ∧ 1 ≤ 3 ∧
    (breakTextLines (String.mk (List.replicate 200 'a')) 3 40).length ≤ 3 :=
  ⟨by decide, by decide,
    (c1_amended_break_text (String.mk (List.replicate 200 'a')) 3 40
      (by decide) (by decide)).1⟩

/-! ## Claim C8 -/

theorem filter_dropWhile_not (cs : List Char) :
    ((cs.dropWhile fun d => !(isWordChar d)).filter fun c => isWordChar c) =
      cs.filter fun c => isWordChar c := by
  induction cs with
  | nil => rfl
  | cons c cs ih =>
    by_cases hc : isWordChar c
    · rw [List.dropWhile_cons_of_neg (by simp [hc])]
    · rw [List.dropWhile_cons_of_pos (by simp [hc]), ih,
        List.filter_cons_of_neg (by simp [hc])]

/-- Replacing each run of non-word characters by the empty string is the same
as deleting every non-word character. -/
theorem subNonWordRuns_eq_filter (l : List Char) :
    subNonWordRuns l = l.filter fun c => isWordChar c := by
  induction l using subNonWordRuns.induct with
  | case1 => rw [subNonWordRuns, List.filter_nil]
  | case2 c cs hc ih =>
    rw [subNonWordRuns, if_pos hc, ih, List.filter_cons_of_pos hc]
  | case3 c cs hc ih =>
    rw [subNonWordRuns, if_neg hc, ih, filter_dropWhile_not,
      List.filter_cons_of_neg (by simpa using hc)]

/-- C8 is false as stated: the titles "a_b" and "ab" agree after removing
every non-alphanumeric character, yet the ffmpeg `sanitize_filename` maps
them to the distinct filenames "a_b" and "ab" (Python's `\W` keeps the
underscore); likewise "a b" and "ab" agree but the moviepy variant keeps the
space. -/
theorem c8_counterexample :
    stripNonAlnumSpec "a_b" = stripNonAlnumSpec "ab" ∧
    sanitize_filename_F "a_b" ≠ sanitize_filename_F "ab" ∧
    stripNonAlnumSpec "a b" = stripNonAlnumSpec "ab" ∧
    sanitize_filename_M "a b" ≠ sanitize_filename_M "ab" := by
  refine ⟨by decide, ?_, by decide, by decide⟩
  rw [sanitize_filename_F, sanitize_filename_F, subNonWordRuns_eq_filter,
    subNonWordRuns_eq_filter]
  decide

/-- C8 (amended): filenames are derived deterministically from the title, but
the rule is not "strip all non-alphanumerics": the ffmpeg variant deletes
every character that is not a letter, digit or underscore (so titles agreeing
after removing every non-word character collide), and the moviepy variant
deletes only the nine characters of the class `[<>:"/\\|?*]`. -/
theorem c8_amended_sanitize :
    (∀ t : String, sanitize_filename_F t = String.mk (t.toList.filter fun c => isWordChar c)) ∧
    (∀ t1 t2 : String,
      (t1.toList.filter fun c => isWordChar c) = (t2.toList.filter fun c => isWordChar c) →
      sanitize_filename_F t1 = sanitize_filename_F t2) ∧
    (∀ t : String,
      sanitize_filename_M t = String.mk (t.toList.filter fun c => !(windowsBadChars.contains c))) := by
  refine ⟨?_, ?_, fun t => rfl⟩
  · intro t
    rw [sanitize_filename_F, subNonWordRuns_eq_filter]
  · intro t1 t2 h
    rw [sanitize_filename_F, sanitize_filename_F, subNonWordRuns_eq_filter,
      subNonWordRuns_eq_filter, h]

/-- Witness for C8 (amended): two titles whose word characters agree get the
same ffmpeg filename. -/
theorem c8_amended_sanitize_witness :
    sanitize_filename_F "a-b!" = sanitize_filename_F "a(b)" :=
  c8_amended_sanitize.2.1 "a-b!" "a(b)" (by decide)

/-! ## Claim C6: the fit-within scale computation

`ShortifyYtVideo_Moviepy.py` lines 205-212 compute (in Python floats; modelled
here in exact rational arithmetic — `int()` truncation equals `⌊·⌋` for the
positive values involved):

    scale_factor = min(target_width / original_width, target_height / original_height)
    new_width = int(original_width * scale_factor)
    new_height = int(original_height * scale_factor)
-/

/-- `scale_factor` of `trim_and_resize_video` (moviepy lines 205-212; the same
formula is applied to the outro clip at lines 278-281). -/
def scale_factor (targetW targetH origW origH : ℚ) : ℚ :=
  min (targetW / origW) (targetH / origH)

/-- `new_width = int(original_width * scale_factor)`. -/
def new_width (targetW targetH origW origH : ℚ) : ℤ :=
  ⌊origW * scale_factor targetW targetH origW origH⌋

/-- `new_height = int(original_height * scale_factor)`. -/
def new_height (targetW targetH origW origH : ℚ) : ℤ :=
  ⌊origH * scale_factor targetW targetH origW origH⌋

/-- C6 is false as stated: a 500×900 source is smaller than the 1080×1920
canvas in both (hence "either") dimensions, yet its fit-within scale factor
`min(1080/500, 1920/900) = 32/15` exceeds 1 (the clip is upscaled). -/
theorem c6_counterexample :
    ¬ scale_factor 1080 1920 500 900 ≤ 1 ∧ (500 : ℚ) < 1080 ∧ (900 : ℚ) < 1920 := by
  refine ⟨?_, by norm_num, by norm_num⟩
  rw [scale_factor]
  norm_num

/-- C6 (amended): the fit-within factor is ≤ 1 exactly for sources at least
as large as the canvas in at least one dimension (for sources strictly
smaller in both dimensions it exceeds 1), and the resized dimensions
preserve the source aspect ratio within rounding:
`|new_w·orig_h − new_h·orig_w| < max(orig_w, orig_h)`. -/
theorem c6_amended_scale (targetW targetH origW origH : ℚ)
    (_htw : 0 < targetW) (_hth : 0 < targetH) (how : 0 < origW) (hoh : 0 < origH) :
    ((targetW ≤ origW ∨ targetH ≤ origH) → scale_factor targetW targetH origW origH ≤ 1) ∧
    (origW < targetW → origH < targetH → 1 < scale_factor targetW targetH origW origH) ∧
    |(new_width targetW targetH origW origH : ℚ) * origH -
      (new_height targetW targetH origW origH : ℚ) * origW| < max origW origH := by
  refine ⟨?_, ?_, ?_⟩
  · rintro (h | h)
    · exact le_trans (min_le_left _ _) ((div_le_one how).mpr h)
    · exact le_trans (min_le_right _ _) ((div_le_one hoh).mpr h)
  · intro h1 h2
    exact lt_min ((one_lt_div how).mpr h1) ((one_lt_div hoh).mpr h2)
  · set f := scale_factor targetW targetH origW origH with hf
    have hw1 : ((⌊origW * f⌋ : ℤ) : ℚ) ≤ origW * f := Int.floor_le _
    have hw2 : origW * f - 1 < ((⌊origW * f⌋ : ℤ) : ℚ) := Int.sub_one_lt_floor _
    have hh1 : ((⌊origH * f⌋ : ℤ) : ℚ) ≤ origH * f := Int.floor_le _
    have hh2 : origH * f - 1 < ((⌊origH * f⌋ : ℤ) : ℚ) := Int.sub_one_lt_floor _
    have hgoal : |((⌊origW * f⌋ : ℤ) : ℚ) * origH - ((⌊origH * f⌋ : ℤ) : ℚ) * origW| <
        max origW origH := by
      rw [abs_lt]
      constructor
      · have v1 : (origW * f - 1) * origH < ((⌊origW * f⌋ : ℤ) : ℚ) * origH :=
          mul_lt_mul_of_pos_right hw2 hoh
        have v2 : ((⌊origH * f⌋ : ℤ) : ℚ) * origW ≤ (origH * f) * origW :=
          mul_le_mul_of_nonneg_right hh1 (le_of_lt how)
        have hm := le_max_right origW origH
        nlinarith
      · have u1 : ((⌊origW * f⌋ : ℤ) : ℚ) * origH ≤ (origW * f) * origH :=
          mul_le_mul_of_nonneg_right hw1 (le_of_lt hoh)
        have u2 : (origH * f - 1) * origW < ((⌊origH * f⌋ : ℤ) : ℚ) * origW :=
          mul_lt_mul_of_pos_right hh2 how
        have hm := le_max_left origW origH
        nlinarith
    simpa [new_width, new_height, hf] using hgoal

/-- Witness for C6 (amended): a 1920×1080 source against the 1080×1920
canvas (larger than the canvas in width), as in the spec's own scenario. -/
theorem c6_amended_scale_witness :
    (0 : ℚ) < 1080 ∧ (0 : ℚ) < 1920 ∧ (0 : ℚ) < 1920 ∧ (0 : ℚ) < 1080 ∧
    ((1080 : ℚ) ≤ 1920 ∨ (1920 : ℚ) ≤ 1080 → scale_factor 1080 1920 1920 1080 ≤ 1) :=
  ⟨by norm_num, by norm_num, by norm_num, by norm_num,
    (c6_amended_scale 1080 1920 1920 1080 (by norm_num) (by norm_num) (by norm_num)
      (by norm_num)).1⟩

/-! ## The Fetcher (ffmpeg variant, lines 78-141)

`download_video`, `merge_video_audio` and `download_and_merge` are modelled as
pure functions over a `FetchEnv` describing the outcome of every external
interaction (YouTube metadata, stream listing, the two stream downloads, the
ffmpeg merge subprocess, and the filesystem).  Each function returns its
Python return value paired with the ordered trace of external effects and log
lines it performs; an entry such as `dlVideo` records that the corresponding
download call was issued (under `try`, so a failing call still appears,
followed by the error log of the `except` branch).  The model is total: no
Python exception escapes these functions for the modelled failure modes,
matching the `try/except` wrappers in the source. -/

/-- External effects and log lines of the Fetcher, in order of occurrence. -/
inductive FetchEv where
  | logDebugAttempt
  | logInfoSkipShort
  | logErrorNoStreams
  | dlVideo
  | dlAudio
  | logInfoDownloaded
  | logErrorDownload
  | ffmpegMerge
  | logInfoMerged
  | logErrorMerge
deriving DecidableEq, Repr

/-- Environment of one `download_video` / `download_and_merge` call. -/
structure FetchEnv where
  ytOk : Bool        -- `YouTube(url)` construction and metadata access succeed
  duration : Nat     -- `yt.length`, in seconds
  hasVideo : Bool    -- an adaptive mp4 video-only stream exists
  hasAudio : Bool    -- an adaptive mp4 audio-only stream exists
  fs : List String   -- the files that exist on disk
  dlVideoOk : Bool   -- the video stream download succeeds
  dlAudioOk : Bool   -- the audio stream download succeeds
  mergeOk : Bool     -- the ffmpeg merge subprocess exits with status 0

/-- `YT_DOWNLOADS_DIR` (the `SCRIPT_DIR` prefix of the absolute path is
elided; it is constant within a run). -/
def YT_DOWNLOADS_DIR : String := "YtDownloads"

def videoFilePath (title : String) : String :=
  YT_DOWNLOADS_DIR ++ "/" ++ sanitize_filename_F title ++ "_video.mp4"

def audioFilePath (title : String) : String :=
  YT_DOWNLOADS_DIR ++ "/" ++ sanitize_filename_F title ++ "_audio.mp4"

def mergedFilePath (title : String) : String :=
  YT_DOWNLOADS_DIR ++ "/" ++ sanitize_filename_F title ++ ".mp4"

/-- `download_video` (ffmpeg variant, lines 78-115): duration gate, stream
selection, cache-by-existence check (on the video file only), then the two
stream downloads; every failure is caught, logged and returned as `None`. -/
def download_video (env : FetchEnv) (videoId title : String) :
    Option (String × String × Bool) × List FetchEv :=
  if env.ytOk then
    if env.duration < 120 then
      (Option.none, [.logDebugAttempt, .logInfoSkipShort])
    else if env.hasVideo && env.hasAudio then
      if videoFilePath title ∈ env.fs then
        (some (videoFilePath title, audioFilePath title, true), [.logDebugAttempt])
      else if env.dlVideoOk then
        if env.dlAudioOk then
          (some (videoFilePath title, audioFilePath title, false),
            [.logDebugAttempt, .dlVideo, .dlAudio, .logInfoDownloaded])
        else (Option.none, [.logDebugAttempt, .dlVideo, .dlAudio, .logErrorDownload])
      else (Option.none, [.logDebugAttempt, .dlVideo, .logErrorDownload])
    else (Option.none, [.logDebugAttempt, .logErrorNoStreams])
  else (Option.none, [.logDebugAttempt, .logErrorDownload])

/-- `merge_video_audio` (lines 117-131): runs the ffmpeg merge; a
`CalledProcessError` is caught and logged; the function always returns
`None`, so only its trace is modelled. -/
def merge_video_audio (env : FetchEnv) : List FetchEv :=
  if env.mergeOk then [.ffmpegMerge, .logInfoMerged] else [.ffmpegMerge, .logErrorMerge]

/-- `download_and_merge` (lines 133-141): on a successful download, merges
unless the files were already local, and returns the output path — note that
it returns the path whether or not the merge succeeded. -/
def download_and_merge (env : FetchEnv) (videoId title : String) :
    Option String × List FetchEv :=
  let r := download_video env videoId title
  match r.1 with
  | some (_v, _a, alreadyLocal) =>
    if alreadyLocal then (some (mergedFilePath title), r.2)
    else (some (mergedFilePath title), r.2 ++ merge_video_audio env)
  | Option.none => (Option.none, r.2)

/-! ## Claim C4 -/

/-- C4: a candidate whose duration is exactly 120 s passes the
minimum-duration gate (with streams available and no cached file, its stream
download is issued and no "skipping" log appears), while a candidate of 119 s
or less is skipped, not errored: `download_video` returns `None` after the
info-level skip log, with no error log and no exception (the model is
total). -/
theorem c4_duration_boundary (env : FetchEnv) (videoId title : String)
    (hyt : env.ytOk = true) :
    (env.duration = 120 → env.hasVideo = true → env.hasAudio = true →
      videoFilePath title ∉ env.fs →
      FetchEv.dlVideo ∈ (download_video env videoId title).2 ∧
      FetchEv.logInfoSkipShort ∉ (download_video env videoId title).2) ∧
    (env.duration ≤ 119 →
      (download_video env videoId title).1 = Option.none ∧
      FetchEv.logInfoSkipShort ∈ (download_video env videoId title).2 ∧
      FetchEv.logErrorDownload ∉ (download_video env videoId title).2 ∧
      FetchEv.logErrorNoStreams ∉ (download_video env videoId title).2) := by
  constructor
  · intro hd hv ha hc
    by_cases h1 : env.dlVideoOk <;> by_cases h2 : env.dlAudioOk <;>
      simp [download_video, hyt, hd, hv, ha, hc, h1, h2]
  · intro hd
    have hlt : env.duration < 120 := by omega
    simp [download_video, hyt, hlt]

/-- Witness for C4: the boundary at a concrete environment — 120 s is
downloaded, 119 s is skipped with a `None` result. -/
theorem c4_duration_boundary_witness :
    FetchEv.dlVideo ∈
      (download_video ⟨true, 120, true, true, [], true, true, true⟩ "v" "t").2 ∧
    (download_video ⟨true, 119, true, true, [], true, true, true⟩ "v" "t").1 =
      Option.none :=
  ⟨((c4_duration_boundary ⟨true, 120, true, true, [], true, true, true⟩ "v" "t" rfl).1
      rfl rfl rfl (by decide)).1,
    ((c4_duration_boundary ⟨true, 119, true, true, [], true, true, true⟩ "v" "t" rfl).2
      (by decide)).1⟩

/-! ## Claim C5 -/

/-- C5 is false as stated: with a successful download but a failing merge
(ffmpeg exits nonzero), `download_and_merge` still returns the output path —
the merge error is logged inside `merge_video_audio` but never surfaces as a
failure result. -/
theorem c5_counterexample :
    (download_and_merge ⟨true, 150, true, true, [], true, true, false⟩ "v" "t").1 =
      some (mergedFilePath "t") ∧
    FetchEv.logErrorMerge ∈
      (download_and_merge ⟨true, 150, true, true, [], true, true, false⟩ "v" "t").2 :=
  ⟨rfl, by decide⟩

/-- C5 (amended): within the modelled failure modes no exception escapes the
Fetcher: every download failure is logged and surfaces as `None` from both
`download_video` and `download_and_merge`; a merge failure, however, is only
logged — `download_and_merge` returns the output path whenever the download
part succeeded, regardless of the merge outcome. -/
theorem c5_amended_fetch_errors (env : FetchEnv) (videoId title : String) :
    ((download_video env videoId title).1 = Option.none →
      (download_and_merge env videoId title).1 = Option.none) ∧
    (∀ v a b, (download_video env videoId title).1 = some (v, a, b) →
      (download_and_merge env videoId title).1 = some (mergedFilePath title)) ∧
    (env.mergeOk = false → FetchEv.logErrorMerge ∈ merge_video_audio env) ∧
    ((download_and_merge env videoId title).1 = Option.none ∨
      (download_and_merge env videoId title).1 = some (mergedFilePath title)) := by
  refine ⟨?_, ?_, ?_, ?_⟩
  · intro h
    simp [download_and_merge, h]
  · intro v a b h
    cases b <;> simp [download_and_merge, h]
  · intro h
    simp [merge_video_audio, h]
  · rcases h : (download_video env videoId title).1 with _ | ⟨v, a, b⟩
    · left
      simp [download_and_merge, h]
    · right
      cases b <;> simp [download_and_merge, h]

/-- Witness for C5 (amended): a failing metadata lookup yields `None` from
`download_and_merge`. -/
theorem c5_amended_fetch_errors_witness :
    (download_and_merge ⟨false, 150, true, true, [], true, true, true⟩ "v" "t").1 =
      Option.none :=
  (c5_amended_fetch_errors ⟨false, 150, true, true, [], true, true, true⟩ "v" "t").1
    (by decide)

/-! ## Claim C9 -/

/-- C9 is false as stated: a candidate whose expected media files both exist
on disk but whose duration (100 s) is below the minimum gets `None`, not the
existing paths — the duration gate (and the stream selection) run before the
cache-by-existence check. -/
theorem c9_counterexample :
    (download_video
        ⟨true, 100, true, true, [videoFilePath "t", audioFilePath "t"], true, true, true⟩
        "v" "t").1 = Option.none := rfl

/-- C9 (amended): provided the candidate passes the duration gate (≥ 120 s)
and both adaptive streams are found, the existence of the expected video file
alone makes `download_video` skip downloading entirely and return the expected
(video, audio, already-merged) triple as a cache hit — its trace holds no
download event and nothing is validated beyond the path-existence test (the
audio file's existence is not even checked). -/
theorem c9_amended_cache_hit (env : FetchEnv) (videoId title : String)
    (hyt : env.ytOk = true) (hd : 120 ≤ env.duration) (hv : env.hasVideo = true)
    (ha : env.hasAudio = true) (hc : videoFilePath title ∈ env.fs) :
    download_video env videoId title =
      (some (videoFilePath title, audioFilePath title, true), [FetchEv.logDebugAttempt]) := by
  have hlt : ¬ env.duration < 120 := by omega
  simp [download_video, hyt, hlt, hv, ha, hc]

/-- Witness for C9 (amended): a cache hit at a concrete environment (where
both stream downloads would fail if attempted — they are not). -/
theorem c9_amended_cache_hit_witness :
    download_video ⟨true, 150, true, true, [videoFilePath "t"], false, false, true⟩ "v" "t" =
      (some (videoFilePath "t", audioFilePath "t", true), [FetchEv.logDebugAttempt]) :=
  c9_amended_cache_hit ⟨true, 150, true, true, [videoFilePath "t"], false, false, true⟩
    "v" "t" rfl (by decide) rfl rfl (by simp)

/-! ## The Compositor, ffmpeg variant (`trim_and_resize_video`, lines 162-295)

The function is a linear pipeline of four ffmpeg invocations, each gated by
`if not os.path.exists(output): subprocess.run(...)`, with two ffprobe
dimension probes in between.  It is modelled as a pure function over an
`FfEnv` (filesystem contents, success of each ffmpeg call, ffprobe results),
returning the Python result value, the ordered list of ffmpeg transcoding
invocations actually issued, the ffprobe calls, and the final filesystem.
Source behaviour preserved by the model:

* a failing stage 1-3 command logs and returns `None` (the bare `return`);
* a failing ffprobe raises inside `get_video_dimensions`, is re-raised, and
  is caught by the outer `except`, which logs and returns `None`;
* `concat_list.txt` is (over)written on every run that reaches step 4;
* a failing concat command (step 4) is only printed — the function still
  falls through to `return True`;
* on full success the function returns `True`, not the output path. -/

/-- One ffmpeg transcoding invocation.  `combine` carries the drawtext
payload produced by `break_text(title, max_lines=3, line_width=20,
top_padding=3, bottom_padding=3)` as in source line 241. -/
inductive FfCmd where
  | blurryBg (duration : Nat)
  | trimMain (duration : Nat)
  | combine (formattedTitle : String)
  | concatStep
deriving DecidableEq, Repr

/-- Environment of one ffmpeg `trim_and_resize_video` call. -/
structure FfEnv where
  fs : List String                     -- files that exist on disk
  blurryOk : Bool                      -- step-1 ffmpeg exit status
  trimOk : Bool                        -- step-2 ffmpeg exit status
  combineOk : Bool                     -- step-3 ffmpeg exit status
  concatOk : Bool                      -- step-4 ffmpeg exit status
  probe : String → Option (Nat × Nat)  -- ffprobe: dimensions, or a raise

/-- Observable outcome of one ffmpeg `trim_and_resize_video` call. -/
structure FfRun where
  result : PyValue
  cmds : List FfCmd      -- ffmpeg transcoding invocations, in order
  probes : List String   -- ffprobe invocations, in order
  fs : List String       -- filesystem afterwards
deriving DecidableEq, Repr

/-- `sanitized_title = title.replace(' ', '_').replace('/', '_')`
(line 171 — note: not `sanitize_filename`). -/
def ffSanitizeTitle (t : String) : String :=
  String.mk (t.toList.map fun c => if c = ' ' ∨ c = '/' then '_' else c)

def ffBlurryPath (t : String) : String :=
  "output_videos/" ++ ffSanitizeTitle t ++ "_blurry_bg_9_16.mp4"

def ffTrimmedPath (t : String) : String :=
  "output_videos/" ++ ffSanitizeTitle t ++ "_trimmed_main.mp4"

def ffFinalPath (t : String) : String :=
  "output_videos/" ++ ffSanitizeTitle t ++ "_final.mp4"

def ffConcatOutPath (t : String) : String :=
  "ShortifiedYtVideos/" ++ ffSanitizeTitle t ++ "_with_outro.mp4"

def concatListPath : String := "concat_list.txt"

/-- Creating a file: adds the path to the filesystem if absent. -/
def insertPath (p : String) (fs : List String) : List String :=
  if p ∈ fs then fs else p :: fs

/-- Step 4 (lines 272-291): write `concat_list.txt`, then concat unless the
output exists; a concat failure is only printed, so the function returns
`True` either way. -/
def ffStep4 (env : FfEnv) (title : String) (fs : List String) (cmds : List FfCmd)
    (probes : List String) : FfRun :=
  let fs2 := insertPath concatListPath fs
  if ffConcatOutPath title ∈ fs2 then ⟨.bool true, cmds, probes, fs2⟩
  else if env.concatOk then
    ⟨.bool true, cmds ++ [.concatStep], probes, insertPath (ffConcatOutPath title) fs2⟩
  else ⟨.bool true, cmds ++ [.concatStep], probes, fs2⟩

/-- Step 3 (lines 243-270): overlay and drawtext unless the output exists;
failure returns `None`. -/
def ffStep3 (env : FfEnv) (title : String) (fs : List String) (cmds : List FfCmd)
    (probes : List String) : FfRun :=
  if ffFinalPath title ∈ fs then ffStep4 env title fs cmds probes
  else if env.combineOk then
    ffStep4 env title (insertPath (ffFinalPath title) fs)
      (cmds ++ [.combine (break_text_padded title 3 20 3 3)]) probes
  else ⟨.none, cmds ++ [.combine (break_text_padded title 3 20 3 3)], probes, fs⟩

/-- The ffprobe on the trimmed main video (line 235); a probe failure
propagates to the outer handler, which returns `None`. -/
def ffProbe2 (env : FfEnv) (title : String) (fs : List String) (cmds : List FfCmd)
    (probes : List String) : FfRun :=
  match env.probe (ffTrimmedPath title) with
  | some _ => ffStep3 env title fs cmds (probes ++ [ffTrimmedPath title])
  | Option.none => ⟨.none, cmds, probes ++ [ffTrimmedPath title], fs⟩

/-- Step 2 (lines 214-232): trim/resize the main video unless the output
exists; failure returns `None`. -/
def ffStep2 (env : FfEnv) (title : String) (duration : Nat) (fs : List String)
    (cmds : List FfCmd) (probes : List String) : FfRun :=
  if ffTrimmedPath title ∈ fs then ffProbe2 env title fs cmds probes
  else if env.trimOk then
    ffProbe2 env title (insertPath (ffTrimmedPath title) fs) (cmds ++ [.trimMain duration])
      probes
  else ⟨.none, cmds ++ [.trimMain duration], probes, fs⟩

/-- The ffprobe on the blurry background (line 211). -/
def ffProbe1 (env : FfEnv) (title : String) (duration : Nat) (fs : List String)
    (cmds : List FfCmd) : FfRun :=
  match env.probe (ffBlurryPath title) with
  | some _ => ffStep2 env title duration fs cmds [ffBlurryPath title]
  | Option.none => ⟨.none, cmds, [ffBlurryPath title], fs⟩

/-- `trim_and_resize_video` of `ShortifyYtVideo_Ffmpeg.py` (lines 162-295):
step 1 (blurry background) then the chain above.  `inputPath` and `outroPath`
only feed the ffmpeg command lines and do not influence control flow. -/
def ffmpegTrimAndResize (env : FfEnv) (inputPath title outroPath : String)
    (duration : Nat := 55) : FfRun :=
  if ffBlurryPath title ∈ env.fs then ffProbe1 env title duration env.fs []
  else if env.blurryOk then
    ffProbe1 env title duration (insertPath (ffBlurryPath title) env.fs) [.blurryBg duration]
  else ⟨.none, [.blurryBg duration], [], env.fs⟩

theorem self_mem_insertPath (p : String) (fs : List String) : p ∈ insertPath p fs := by
  unfold insertPath
  split
  · assumption
  · exact List.mem_cons_self p fs

theorem mem_insertPath (p q : String) (fs : List String) (h : q ∈ fs) :
    q ∈ insertPath p fs := by
  unfold insertPath
  split
  · exact h
  · exact List.mem_cons_of_mem p h

theorem insertPath_eq_of_mem (p : String) (fs : List String) (h : p ∈ fs) :
    insertPath p fs = fs := by
  unfold insertPath
  exact if_pos h

/-! ## The Compositor, moviepy variant (`trim_and_resize_video`, lines 180-302)

Modelled over the sizes reported by the three `VideoFileClip` loads (the input
is loaded twice — `clip` and `clip2` — and the outro once, all before the
resolution check).  The observable outcome is the Python result (always
`None`: the function has no `return` statement, and every failure is caught,
logged and falls off the end), the list of attempted `write_videofile` calls,
the composition operations performed, and the initial fit-within resize of the
foreground computed by `new_width`/`new_height`.  Failures inside a branch
(`TextClip` fonts, `write_videofile`, ...) only change the log, never the
result, and are not modelled separately. -/

inductive WriteKind where
  | trimmedOnly     -- the small-resolution branch: only the trimmed source clip
  | fullComposite   -- background + foreground + banner (+ watermark) + outro
deriving DecidableEq, Repr

/-- Composition operations of the full branch. -/
inductive MovOp where
  | blurBg
  | cropBg
  | titleBanner (wrappedTitle : String)
  | watermarkOp
  | outroConcat
deriving DecidableEq, Repr

/-- Environment of one moviepy `trim_and_resize_video` call: the sizes of the
loaded clips (`Option.none` models a raising load). -/
structure MovEnv where
  loadMain : Option (Nat × Nat)
  loadOutro : Option (Nat × Nat)

/-- Observable outcome of one moviepy `trim_and_resize_video` call. -/
structure MovRun where
  result : PyValue
  writes : List (String × WriteKind)  -- write_videofile calls (path, content)
  ops : List MovOp
  resizedMain : Option (ℤ × ℤ)        -- the initial fit-within resize, if any
deriving DecidableEq, Repr

/-- `SHORTIFIED_VIDEOS_DIR` (the `SCRIPT_DIR` prefix of the absolute path is
elided, as for `YT_DOWNLOADS_DIR`). -/
def SHORTIFIED_VIDEOS_DIR : String := "ShortifiedYtVideos"

/-- Output path of the small-resolution branch (line 202). -/
def movShortPath (title : String) : String :=
  SHORTIFIED_VIDEOS_DIR ++ "/" ++ sanitize_filename_M title ++ "_short.mp4"

/-- Output path of the full branch (line 297). -/
def movWithOutroPath (title : String) : String :=
  SHORTIFIED_VIDEOS_DIR ++ "/" ++ sanitize_filename_M title ++ "_short_with_outro.mp4"

/-- `trim_and_resize_video` of `ShortifyYtVideo_Moviepy.py` (lines 180-302). -/
def movTrimAndResize (env : MovEnv) (inputPath title outroPath : String)
    (watermarkPath : Option String) : MovRun :=
  match env.loadMain, env.loadOutro with
  | Option.none, _ => ⟨.none, [], [], Option.none⟩
  | some _, Option.none => ⟨.none, [], [], Option.none⟩
  | some (w, h), some _ =>
    if w < 360 ∨ h < 640 then
      ⟨.none, [(movShortPath title, .trimmedOnly)], [], Option.none⟩
    else
      ⟨.none, [(movWithOutroPath title, .fullComposite)],
        [MovOp.blurBg] ++ (if 1080 < w then [MovOp.cropBg] else []) ++
          [MovOp.titleBanner (break_text title 3 40)] ++
          (match watermarkPath with
            | some _ => [MovOp.watermarkOp]
            | Option.none => []) ++
          [MovOp.outroConcat],
        some (new_width 1080 1920 (w : ℚ) (h : ℚ), new_height 1080 1920 (w : ℚ) (h : ℚ))⟩

/-! ## Claim C2 -/

/-- A filesystem on which every stage output of the ffmpeg pipeline for title
"t" already exists. -/
def c2Env : FfEnv :=
  ⟨[ffBlurryPath "t", ffTrimmedPath "t", ffFinalPath "t", ffConcatOutPath "t"],
    true, true, true, true, fun _ => some (720, 1280)⟩

/-- C2 is false as stated: when every stage output exists the pipeline indeed
issues no transcoding call, but it returns the value `True`, not an output
path — no run of `trim_and_resize_video` ever returns a path. -/
theorem c2_counterexample :
    (ffmpegTrimAndResize c2Env "in.mp4" "t" "outro.mp4" 55).cmds = [] ∧
    (ffmpegTrimAndResize c2Env "in.mp4" "t" "outro.mp4" 55).result = PyValue.bool true := by
  decide

/-- C2 (amended): when all four stage outputs exist (and the two ffprobe
calls succeed), the run issues no ffmpeg transcoding call, returns `True`
(the function's success value — an output path is never returned), only
re-writes `concat_list.txt`, and re-running it on the resulting filesystem is
the identity: the second run is equal to the first (same result `True`, again
no transcoding calls, same filesystem). -/
theorem c2_amended_idempotent (env : FfEnv) (inputPath title outroPath : String)
    (duration : Nat) (d1 d2 : Nat × Nat)
    (hb : ffBlurryPath title ∈ env.fs) (ht : ffTrimmedPath title ∈ env.fs)
    (hf : ffFinalPath title ∈ env.fs) (hc : ffConcatOutPath title ∈ env.fs)
    (hp1 : env.probe (ffBlurryPath title) = some d1)
    (hp2 : env.probe (ffTrimmedPath title) = some d2) :
    (ffmpegTrimAndResize env inputPath title outroPath duration).cmds = [] ∧
    (ffmpegTrimAndResize env inputPath title outroPath duration).result =
      PyValue.bool true ∧
    ffmpegTrimAndResize
        { env with fs := (ffmpegTrimAndResize env inputPath title outroPath duration).fs }
        inputPath title outroPath duration =
      ffmpegTrimAndResize env inputPath title outroPath duration := by
  have hc1 : ffConcatOutPath title ∈ insertPath concatListPath env.fs :=
    mem_insertPath _ _ _ hc
  have h1 : ffmpegTrimAndResize env inputPath title outroPath duration =
      ⟨PyValue.bool true, [], [ffBlurryPath title, ffTrimmedPath title],
        insertPath concatListPath env.fs⟩ := by
    simp [ffmpegTrimAndResize, ffProbe1, ffStep2, ffProbe2, ffStep3, ffStep4,
      hb, ht, hf, hc1, hp1, hp2]
  set fs1 := insertPath concatListPath env.fs with hfs1
  have hb2 : ffBlurryPath title ∈ fs1 := mem_insertPath _ _ _ hb
  have ht2 : ffTrimmedPath title ∈ fs1 := mem_insertPath _ _ _ ht
  have hf2 : ffFinalPath title ∈ fs1 := mem_insertPath _ _ _ hf
  have hcl : insertPath concatListPath fs1 = fs1 :=
    insertPath_eq_of_mem _ _ (self_mem_insertPath _ _)
  have hc2 : ffConcatOutPath title ∈ insertPath concatListPath fs1 := by
    rw [hcl]
    exact mem_insertPath _ _ _ hc
  have h2 : ffmpegTrimAndResize { env with fs := fs1 } inputPath title outroPath duration =
      ⟨PyValue.bool true, [], [ffBlurryPath title, ffTrimmedPath title],
        insertPath concatListPath fs1⟩ := by
    simp [ffmpegTrimAndResize, ffProbe1, ffStep2, ffProbe2, ffStep3, ffStep4,
      hb2, ht2, hf2, hc2, hp1, hp2]
  refine ⟨by rw [h1], by rw [h1], ?_⟩
  rw [h1]
  rw [show ({ env with fs := (⟨PyValue.bool true, [], [ffBlurryPath title, ffTrimmedPath title], fs1⟩ : FfRun).fs } : FfEnv) = { env with fs := fs1 } from rfl]
  rw [h2, hcl]

/-- Witness for C2 (amended): the theorem applied to the concrete
all-outputs-present environment. -/
theorem c2_amended_idempotent_witness :
    (ffmpegTrimAndResize c2Env "in.mp4" "t" "outro.mp4" 42).cmds = [] :=
  (c2_amended_idempotent c2Env "in.mp4" "t" "outro.mp4" 42 (720, 1280) (720, 1280)
    (by decide) (by decide) (by decide) (by decide) rfl rfl).1

/-! ## Claim C3 -/

/-- An environment in which every external call of the ffmpeg pipeline
succeeds and nothing is cached. -/
def c3Env : FfEnv := ⟨[], true, true, true, true, fun _ => some (720, 1280)⟩

/-- C3 is false as stated: on a fully successful run the ffmpeg variant
returns `True` — a boolean, not the output path — and the moviepy variant
returns `None` even though it successfully wrote its output file. -/
theorem c3_counterexample :
    (ffmpegTrimAndResize c3Env "in.mp4" "t" "o.mp4" 55).result = PyValue.bool true ∧
    (movTrimAndResize ⟨some (1920, 1080), some (1280, 720)⟩ "in.mp4" "t" "o.mp4"
        Option.none).result = PyValue.none ∧
    (movTrimAndResize ⟨some (1920, 1080), some (1280, 720)⟩ "in.mp4" "t" "o.mp4"
        Option.none).writes ≠ [] := by
  refine ⟨by decide, rfl, by decide⟩

theorem ffStep4_result (env : FfEnv) (title : String) (fs : List String)
    (cmds : List FfCmd) (probes : List String) :
    (ffStep4 env title fs cmds probes).result = PyValue.bool true := by
  simp only [ffStep4]
  split_ifs <;> rfl

theorem ffStep3_result (env : FfEnv) (title : String) (fs : List String)
    (cmds : List FfCmd) (probes : List String) :
    (ffStep3 env title fs cmds probes).result = PyValue.bool true ∨
    (ffStep3 env title fs cmds probes).result = PyValue.none := by
  unfold ffStep3
  split_ifs
  · exact Or.inl (ffStep4_result ..)
  · exact Or.inl (ffStep4_result ..)
  · exact Or.inr rfl

theorem ffProbe2_result (env : FfEnv) (title : String) (fs : List String)
    (cmds : List FfCmd) (probes : List String) :
    (ffProbe2 env title fs cmds probes).result = PyValue.bool true ∨
    (ffProbe2 env title fs cmds probes).result = PyValue.none := by
  unfold ffProbe2
  split
  · exact ffStep3_result ..
  · exact Or.inr rfl

theorem ffStep2_result (env : FfEnv) (title : String) (duration : Nat) (fs : List String)
    (cmds : List FfCmd) (probes : List String) :
    (ffStep2 env title duration fs cmds probes).result = PyValue.bool true ∨
    (ffStep2 env title duration fs cmds probes).result = PyValue.none := by
  unfold ffStep2
  split_ifs
  · exact ffProbe2_result ..
  · exact ffProbe2_result ..
  · exact Or.inr rfl

theorem ffProbe1_result (env : FfEnv) (title : String) (duration : Nat) (fs : List String)
    (cmds : List FfCmd) :
    (ffProbe1 env title duration fs cmds).result = PyValue.bool true ∨
    (ffProbe1 env title duration fs cmds).result = PyValue.none := by
  unfold ffProbe1
  split
  · exact ffStep2_result ..
  · exact Or.inr rfl

/-- C3 (amended): the Compositor entry points never return a path.  The
ffmpeg variant returns `True` on success and the failure sentinel `None` on
failure; the moviepy variant returns `None` in every case (success is
observable only through the written file and the log). -/
theorem c3_amended_result_type :
    (∀ (env : FfEnv) (inputPath title outroPath : String) (duration : Nat),
      (ffmpegTrimAndResize env inputPath title outroPath duration).result =
        PyValue.bool true ∨
      (ffmpegTrimAndResize env inputPath title outroPath duration).result =
        PyValue.none) ∧
    (∀ (env : MovEnv) (inputPath title outroPath : String) (wm : Option String),
      (movTrimAndResize env inputPath title outroPath wm).result = PyValue.none) := by
  constructor
  · intro env inputPath title outroPath duration
    unfold ffmpegTrimAndResize
    split_ifs
    · exact ffProbe1_result ..
    · exact ffProbe1_result ..
    · exact Or.inr rfl
  · intro env inputPath title outroPath wm
    obtain ⟨lm, lo⟩ := env
    cases lm with
    | none => rfl
    | some s =>
      obtain ⟨w, h⟩ := s
      cases lo with
      | none => rfl
      | some s2 =>
        simp only [movTrimAndResize]
        split_ifs <;> rfl

/-- Witness for C3 (amended): the amended theorem applied to a concrete
successful environment. -/
theorem c3_amended_result_type_witness :
    (ffmpegTrimAndResize c3Env "a.mp4" "x" "b.mp4" 10).result = PyValue.bool true ∨
    (ffmpegTrimAndResize c3Env "a.mp4" "x" "b.mp4" 10).result = PyValue.none :=
  c3_amended_result_type.1 c3Env "a.mp4" "x" "b.mp4" 10

/-! ## Claim C10 -/

/-- C10: in the moviepy variant, a source smaller than 360×640 in either
dimension skips the whole composition: the only write is the trimmed source
clip at `..._short.mp4` (no blur, banner, watermark or outro operation, no
fit-within resize), and that path differs from the full-branch
`..._short_with_outro.mp4` path. -/
theorem c10_small_resolution (env : MovEnv) (inputPath title outroPath : String)
    (wm : Option String) (w h ow oh : Nat)
    (hm : env.loadMain = some (w, h)) (ho : env.loadOutro = some (ow, oh))
    (hsmall : w < 360 ∨ h < 640) :
    movTrimAndResize env inputPath title outroPath wm =
      ⟨PyValue.none, [(movShortPath title, WriteKind.trimmedOnly)], [], Option.none⟩ ∧
    movShortPath title ≠ movWithOutroPath title := by
  constructor
  · simp only [movTrimAndResize, hm, ho]
    rw [if_pos hsmall]
  · intro heq
    have hlen := congrArg String.length heq
    simp [movShortPath, movWithOutroPath, String.length_append] at hlen
    exact absurd hlen (by decide)

/-- Witness for C10: a 320×640 source (width below the 360 minimum). -/
theorem c10_small_resolution_witness :
    movTrimAndResize ⟨some (320, 640), some (1280, 720)⟩ "in.mp4" "t" "o.mp4" Option.none =
      ⟨PyValue.none, [(movShortPath "t", WriteKind.trimmedOnly)], [], Option.none⟩ :=
  (c10_small_resolution ⟨some (320, 640), some (1280, 720)⟩ "in.mp4" "t" "o.mp4"
    Option.none 320 640 1280 720 rfl rfl (Or.inl (by decide))).1

/-! ## The Orchestrator, moviepy variant (`main_flow`, lines 338-376)

`main_flow` first ensures the channel logo exists (returning early if the
logo URL cannot be fetched; a failing logo download is caught and printed),
then loops `while trials < max_trials (= 5)`.  Each iteration fetches a fresh
candidate list and processes only its first entry.  Modelled faithfully from
the source, including the defect at line 366: the call

    trim_and_resize_video(download_path, video_title+video_id, watermark_path=logo_path)

omits the required positional argument `outro_path` of
`trim_and_resize_video(input_path, title, outro_path, ...)` (line 180), so
whenever a download succeeds the call raises `TypeError` before the `break`
is reached, and nothing in `main_flow` catches it. -/

/-- An exception escaping `main_flow`. -/
inductive PyErr where
  | typeError   -- the composition call misses the required `outro_path`
  | metaRaise   -- `YouTube(video_url)` / `.title` raised (not caught)
  | indexError  -- `video_urls[0]` on an empty list
deriving DecidableEq, Repr

/-- Log lines of the orchestrator loop. -/
inductive FlowEv where
  | infoSelected
  | errDownloadFailed
  | warnNoVideos
  | criticalExhausted
deriving DecidableEq, Repr

/-- Environment of one loop iteration. -/
structure TrialEnv where
  fetch : Option (List String)  -- fetch_random_video(): the shuffled urls, or None
  ytOk : Bool                   -- YouTube(video_url) metadata access succeeds
  downloadOk : Bool             -- download_and_merge returns a path and the file exists

/-- Environment of one `main_flow` run. -/
structure FlowEnv where
  logoExists : Bool
  logoFetch : Option String     -- fetch_channel_logo()
  trials : Nat → TrialEnv       -- environment of the i-th loop iteration

/-- Normal termination of `main_flow`: trials performed and log lines. -/
structure FlowOut where
  trialsUsed : Nat
  events : List FlowEv
deriving DecidableEq, Repr

/-- The `while trials < max_trials` loop (lines 352-375), counting down the
remaining iterations (`remaining = 5 - trials`).  After `trials += 1` the
source logs `critical` when `trials >= max_trials`, i.e. exactly when
`remaining` reaches 0. -/
def mainFlowLoop (env : FlowEnv) : Nat → Nat → List FlowEv → Except PyErr FlowOut
  | 0, trials, evs => Except.ok ⟨trials, evs⟩
  | remaining + 1, trials, evs =>
    let t := env.trials trials
    match t.fetch with
    | some urls =>
      match urls.head? with
      | Option.none => Except.error PyErr.indexError
      | some _url =>
        if t.ytOk then
          if t.downloadOk then Except.error PyErr.typeError
          else
            mainFlowLoop env remaining (trials + 1)
              (evs ++ [FlowEv.infoSelected, FlowEv.errDownloadFailed] ++
                (if remaining = 0 then [FlowEv.criticalExhausted] else []))
        else Except.error PyErr.metaRaise
    | Option.none =>
      mainFlowLoop env remaining (trials + 1)
        (evs ++ [FlowEv.warnNoVideos] ++
          (if remaining = 0 then [FlowEv.criticalExhausted] else []))

/-- `main_flow` (lines 338-376). -/
def main_flow (env : FlowEnv) : Except PyErr FlowOut :=
  if env.logoExists then mainFlowLoop env 5 0 []
  else
    match env.logoFetch with
    | some _url => mainFlowLoop env 5 0 []
    | Option.none => Except.ok ⟨0, []⟩

/-! ## Claim C7 -/

/-- An environment in which the very first candidate's download succeeds. -/
def c7Env : FlowEnv := ⟨true, Option.none, fun _ => ⟨some ["u"], true, true⟩⟩

/-- C7: evaluating the orchestrator model.  (a) At the failing input — the
first candidate downloads successfully — `main_flow` raises `TypeError` out
of the orchestrator (the composition call at line 366 omits the required
`outro_path` argument), contradicting both "until one produces a successful
composed output" and "never raises".  (b) When every fetch returns no
candidates, the loop does stop after exactly 5 trials with a critical
exhaustion log and no exception, as the claim describes. -/
theorem c7_code_bug_eval :
    main_flow c7Env = Except.error PyErr.typeError ∧
    main_flow ⟨true, Option.none, fun _ => ⟨Option.none, true, true⟩⟩ =
      Except.ok ⟨5, [FlowEv.warnNoVideos, FlowEv.warnNoVideos, FlowEv.warnNoVideos,
        FlowEv.warnNoVideos, FlowEv.warnNoVideos, FlowEv.criticalExhausted]⟩ :=
  ⟨rfl, rfl⟩

end Shortify
